import Mathlib

/-!
Verification of the cache-validated build-orchestration logic of the
setup-odin GitHub action (src/index.js).

The JavaScript program is shallowly embedded: every external effect
(process execution, cache-store restore, output reporting) is recorded as
an `Event` in a trace, and the outcome of each external command is supplied
up front by a per-run oracle `Env` (each external command is invoked at
most once per run, so one field per command suffices).  Per the design
document, the external `ProcessRunner.exec` collaborator returns the exit
code of the command (and a variant additionally returns the captured
standard output); fallible application code is modelled with
`Except String`.  `Promise.all` of two already-started operations is
modelled by running both operations to completion, concatenating their
traces (the real interleaving order is immaterial to every property
below, which only inspects presence and multiplicity of events), and
failing when either side failed, mirroring that a rejection of either
promise rejects the join.
-/

set_option maxHeartbeats 1000000

namespace SetupOdin

/-- Resolved action configuration (`common.getInputs()`), per the data
model: repository URL, Odin version, LLVM version, build type, and the
cache-enabled flag. -/
structure Inputs where
  repository : String
  odinVersion : String
  llvmVersion : String
  buildType : String
  cacheCheck : Bool
  deriving DecidableEq

/-- Per-run oracle for the external world: the host platform string
(`os.platform()`), the key the cache store actually restores
(`cache.restoreCache`, `none` when nothing was restored), the exit code
of the `git clone`, the captured stdout of the `git pull`, whether
`io.which` resolves the LLVM binary on linux, and the exit codes of
`brew`, `apt-fast` and the external build script. -/
structure Env where
  platform : String
  restoredKey : Option String
  cloneExit : Int
  pullStdout : String
  whichOk : Bool
  brewExit : Int
  aptExit : Int
  buildExit : Int
  deriving DecidableEq

/-- Observable effects of a run, in program order. -/
inductive Event where
  | addPath (p : String)
  | cacheRestore (key : String)
  | execClone (repo version : String)
  | execPull (path version : String)
  | execBuild (script buildType cwd : String)
  | execBrew (pkg : String)
  | execWhich (bin : String)
  | execApt (pkg1 pkg2 : String)
  | setOutputCacheHit (value : Bool)
  | saveStateCacheHit (value : String)
  | info (msg : String)
  | setFailed (msg : String)
  deriving DecidableEq

instance {ε α : Type} [DecidableEq ε] [DecidableEq α] : DecidableEq (Except ε α) := fun a b =>
  match a, b with
  | Except.ok x, Except.ok y =>
      if h : x = y then isTrue (by rw [h]) else isFalse (fun hh => h (Except.ok.inj hh))
  | Except.error x, Except.error y =>
      if h : x = y then isTrue (by rw [h]) else isFalse (fun hh => h (Except.error.inj hh))
  | Except.ok _, Except.error _ => isFalse (fun hh => Except.noConfusion hh)
  | Except.error _, Except.ok _ => isFalse (fun hh => Except.noConfusion hh)

/-- Modelled from the spec: `common.odinPath()` (common.js is not part of
src/), the fixed checkout path of the Odin source tree.  Its concrete
value is irrelevant to every property below. -/
def odinPath : String := "/home/runner/odin"

/-- Modelled from the spec: `common.composeCacheKey(inputs)` (common.js is
not part of src/), a pure deterministic function of the version-affecting
fields (repository, compiler version, build type, host OS).  Only
equality of keys matters to the orchestrator. -/
def composeCacheKey (inputs : Inputs) (platform : String) : String :=
  "odin-" ++ platform ++ "-" ++ inputs.repository ++ "-" ++ inputs.odinVersion ++ "-" ++ inputs.buildType

/-- Substring search over character lists, the semantics of JavaScript
`String.prototype.includes`: at each position test whether the pattern is
a prefix of the remaining input. -/
def listContainsSub : List Char → List Char → Bool
  | [], pat => pat.isEmpty
  | c :: rest, pat => pat.isPrefixOf (c :: rest) || listContainsSub rest pat

/-- JavaScript `s.includes(pat)`. -/
def jsIncludes (s pat : String) : Bool :=
  listContainsSub s.data pat.data

/-- The literal textual staleness signal matched against the pull's
stdout. -/
def upToDateSignal : String := "Already up to date."

/-- Embedding of `pullUpdates(path, version)` (index.js lines 123-137): run
`git pull origin <version>` in `path` capturing output, and report whether
the captured stdout contains the literal "Already up to date.". -/
def pullUpdates (env : Env) (path version : String) : Bool × List Event :=
  (jsIncludes env.pullStdout upToDateSignal, [Event.execPull path version])

/-- Embedding of `pullOdin(repository, version)` (index.js lines 100-115): shallow
single-branch tag-free `git clone`; a non-zero exit code is a fatal error
naming the code and suggesting the version may not exist. -/
def pullOdin (env : Env) (repository version : String) : Except String Unit × List Event :=
  if env.cloneExit ≠ 0 then
    (Except.error ("Git clone failed with exit code: " ++ toString env.cloneExit ++ ", are you sure that version exists?"),
      [Event.execClone repository version])
  else
    (Except.ok (), [Event.execClone repository version])

/-- Embedding of `pullOdinBuildDependencies(llvm)` (index.js lines 144-192): OS-dispatched
dependency installation.  darwin: add the versioned LLVM prefix to the
path then `brew install llvm@<llvm>`; linux: probe `io.which` first and
skip installation when the binary is already resolvable, otherwise
`sudo apt-fast install`; win32: nothing to do; any other platform is an
immediate unsupported-platform error with no installation action. -/
def pullOdinBuildDependencies (env : Env) (llvm : String) : Except String Unit × List Event :=
  if env.platform = "darwin" then
    if env.brewExit ≠ 0 then
      (Except.error ("Installing Odin dependencies failed with exit code: " ++ toString env.brewExit),
        [Event.addPath ("/usr/local/opt/llvm@" ++ llvm ++ "/bin"), Event.execBrew ("llvm@" ++ llvm)])
    else
      (Except.ok (),
        [Event.addPath ("/usr/local/opt/llvm@" ++ llvm ++ "/bin"), Event.execBrew ("llvm@" ++ llvm)])
  else if env.platform = "linux" then
    if env.whichOk then
      (Except.ok (),
        [Event.execWhich ("llvm-" ++ llvm), Event.info ("LLVM " ++ llvm ++ " comes pre-installed on this runner")])
    else if env.aptExit ≠ 0 then
      (Except.error ("Installing Odin dependencies failed with exit code: " ++ toString env.aptExit),
        [Event.execWhich ("llvm-" ++ llvm), Event.execApt ("llvm-" ++ llvm ++ "-dev") ("clang-" ++ llvm)])
    else
      (Except.ok (),
        [Event.execWhich ("llvm-" ++ llvm), Event.execApt ("llvm-" ++ llvm ++ "-dev") ("clang-" ++ llvm)])
  else if env.platform = "win32" then
    (Except.ok (), [])
  else
    (Except.error ("Operating system " ++ env.platform ++ " is not supported by setup-odin"), [])

/-- Embedding of `restoreCache(inputs, odinPath)` (index.js lines 71-92): query the cache
store with the composed key; on a key match validate freshness with
`pullUpdates` (confirmed hit emits `cache-hit=true` output and state and
returns `true`; stale hit returns `false`); on a mismatch or absent key
perform a fresh clone via `pullOdin` and return `false`. -/
def restoreCache (env : Env) (inputs : Inputs) (path : String) : Except String Bool × List Event :=
  if env.restoredKey = some (composeCacheKey inputs env.platform) then
    if (pullUpdates env path inputs.odinVersion).1 then
      (Except.ok true,
        Event.cacheRestore (composeCacheKey inputs env.platform) ::
          Event.info "Cache HIT, checking if it is still up-to-date" ::
          (pullUpdates env path inputs.odinVersion).2 ++
          [Event.info "Cache is still up-to-date", Event.setOutputCacheHit true,
            Event.saveStateCacheHit "true", Event.info "Successfully set up Odin compiler"])
    else
      (Except.ok false,
        Event.cacheRestore (composeCacheKey inputs env.platform) ::
          Event.info "Cache HIT, checking if it is still up-to-date" ::
          (pullUpdates env path inputs.odinVersion).2 ++
          [Event.info "Cache is not up-to-date, rebuilding the compiler now"])
  else
    ((pullOdin env inputs.repository inputs.odinVersion).1.map (fun _ => false),
      Event.cacheRestore (composeCacheKey inputs env.platform) ::
        Event.info "Cache MISS" ::
        (pullOdin env inputs.repository inputs.odinVersion).2)

/-- Join of `Promise.all` over two already-started operations: both run to
completion (their traces are both recorded); the join fails when either
side failed. -/
def promiseAll2 {α β : Type} (a : Except String α × List Event) (b : Except String β × List Event) :
    Except String (α × β) × List Event :=
  match a, b with
  | (Except.ok x, evA), (Except.ok y, evB) => (Except.ok (x, y), evA ++ evB)
  | (Except.error e, evA), (_, evB) => (Except.error e, evA ++ evB)
  | (Except.ok _, evA), (Except.error e, evB) => (Except.error e, evA ++ evB)

/-- The external build invocation (index.js lines 37-57): darwin and linux
run `./build_odin.sh <buildType>`, win32 runs `./build.bat <buildType>`,
both in the checkout directory; a non-zero exit code is a fatal error
embedding the code.  On any other platform the switch leaves
`buildExitCode` undefined, and `undefined !== 0` throws with the literal
interpolation of `undefined` (that branch is unreachable from `run`,
because dependency installation already failed fatally there). -/
def buildStep (env : Env) (inputs : Inputs) : Except String Unit × List Event :=
  if env.platform = "darwin" ∨ env.platform = "linux" then
    if env.buildExit ≠ 0 then
      (Except.error ("Building Odin failed with exit code: " ++ toString env.buildExit),
        [Event.execBuild "./build_odin.sh" inputs.buildType odinPath])
    else
      (Except.ok (), [Event.execBuild "./build_odin.sh" inputs.buildType odinPath])
  else if env.platform = "win32" then
    if env.buildExit ≠ 0 then
      (Except.error ("Building Odin failed with exit code: " ++ toString env.buildExit),
        [Event.execBuild "./build.bat" inputs.buildType odinPath])
    else
      (Except.ok (), [Event.execBuild "./build.bat" inputs.buildType odinPath])
  else
    (Except.error "Building Odin failed with exit code: undefined", [])

/-- Embedding of index.js lines 34-59: the code that runs after the cache decision has
fallen through to a rebuild: emit `cache-hit=false` output and state, run
the external build, and fail fatally on a non-zero build exit code. -/
def afterCache (env : Env) (inputs : Inputs) : Except String Unit × List Event :=
  match buildStep env inputs with
  | (Except.ok _, evs) =>
      (Except.ok (),
        Event.setOutputCacheHit false :: Event.saveStateCacheHit "false" ::
          evs ++ [Event.info "Successfully set up Odin compiler"])
  | (Except.error e, evs) =>
      (Except.error e,
        Event.setOutputCacheHit false :: Event.saveStateCacheHit "false" :: evs)

/-- The body of `run()`'s try block (index.js lines 12-59).  `common.cacheCheck`
is modelled from the spec as the cache-enabled flag of `Inputs` (common.js
is not part of src/). -/
def runBody (env : Env) (inputs : Inputs) : Except String Unit × List Event :=
  if inputs.cacheCheck then
    match promiseAll2 (restoreCache env inputs odinPath) (pullOdinBuildDependencies env inputs.llvmVersion) with
    | (Except.ok (true, _), evs) => (Except.ok (), Event.addPath odinPath :: evs)
    | (Except.ok (false, _), evs) =>
        ((afterCache env inputs).1, Event.addPath odinPath :: evs ++ (afterCache env inputs).2)
    | (Except.error e, evs) => (Except.error e, Event.addPath odinPath :: evs)
  else
    match promiseAll2 (pullOdin env inputs.repository inputs.odinVersion) (pullOdinBuildDependencies env inputs.llvmVersion) with
    | (Except.ok _, evs) =>
        ((afterCache env inputs).1, Event.addPath odinPath :: evs ++ (afterCache env inputs).2)
    | (Except.error e, evs) => (Except.error e, Event.addPath odinPath :: evs)

/-- Embedding of `run()` (index.js lines 11-63): the try/catch wrapper; an error from the
body is reported through `core.setFailed` and the run is unsuccessful.
The boolean is `true` exactly when the run terminates successfully. -/
def run (env : Env) (inputs : Inputs) : Bool × List Event :=
  match runBody env inputs with
  | (Except.ok _, evs) => (true, evs)
  | (Except.error e, evs) => (false, evs ++ [Event.setFailed e])

/-- Recognizer for external build invocations. -/
def isBuildEv : Event → Bool
  | Event.execBuild _ _ _ => true
  | _ => false

/-- Recognizer for `git clone` invocations. -/
def isCloneEv : Event → Bool
  | Event.execClone _ _ => true
  | _ => false

/-- Recognizer for `git pull` invocations. -/
def isPullEv : Event → Bool
  | Event.execPull _ _ => true
  | _ => false

/-- Recognizer for cache-store queries. -/
def isCacheQueryEv : Event → Bool
  | Event.cacheRestore _ => true
  | _ => false

/-- Recognizer for the events the dependency installer can emit
(path additions, brew/which/apt invocations, log lines). -/
def isDepEv : Event → Bool
  | Event.addPath _ => true
  | Event.execBrew _ => true
  | Event.execWhich _ => true
  | Event.execApt _ _ => true
  | Event.info _ => true
  | _ => false

/-- Number of external build invocations in a trace. -/
def countBuild (evs : List Event) : Nat := evs.countP isBuildEv

/-- Number of `git clone` invocations in a trace. -/
def countClone (evs : List Event) : Nat := evs.countP isCloneEv

/-- Number of `git pull` invocations in a trace. -/
def countPull (evs : List Event) : Nat := evs.countP isPullEv

/-- Number of cache-store queries in a trace. -/
def countCacheQuery (evs : List Event) : Nat := evs.countP isCacheQueryEv

/-- The dependency installation succeeded. -/
def depsOk (env : Env) (llvm : String) : Bool :=
  match (pullOdinBuildDependencies env llvm).1 with
  | Except.ok _ => true
  | Except.error _ => false

/-- A confirmed cache hit: caching enabled, the restored key equals the
requested key, and the pull reports already-current. -/
def confirmedHit (env : Env) (inputs : Inputs) : Bool :=
  inputs.cacheCheck &&
    decide (env.restoredKey = some (composeCacheKey inputs env.platform)) &&
    jsIncludes env.pullStdout upToDateSignal

/-- The restore/clone phase and the concurrent dependency installation all
completed without a fatal error and the run was not a confirmed hit, so
control reaches the `cache-hit=false` emission point (index.js line 34). -/
def proceedsToRebuild (env : Env) (inputs : Inputs) : Bool :=
  if inputs.cacheCheck then
    (match (restoreCache env inputs odinPath).1 with
      | Except.ok false => true
      | _ => false) &&
    (match (pullOdinBuildDependencies env inputs.llvmVersion).1 with
      | Except.ok _ => true
      | _ => false)
  else
    (match (pullOdin env inputs.repository inputs.odinVersion).1 with
      | Except.ok _ => true
      | _ => false) &&
    (match (pullOdinBuildDependencies env inputs.llvmVersion).1 with
      | Except.ok _ => true
      | _ => false)

/-! Concrete configurations and environments used to instantiate the
properties below.  Field order of `Env`:
platform, restoredKey, cloneExit, pullStdout, whichOk, brewExit, aptExit,
buildExit. -/

/-- A configuration with caching enabled. -/
def inputsOn : Inputs :=
  ⟨"https://github.com/odin-lang/Odin", "master", "14", "release", true⟩

/-- A configuration with caching disabled. -/
def inputsOff : Inputs :=
  ⟨"https://github.com/odin-lang/Odin", "master", "14", "release", false⟩

/-- Witness run for C1: win32, confirmed hit, dependency install trivially ok. -/
def envC1w : Env :=
  ⟨"win32", some (composeCacheKey inputsOn "win32"), 0, "Already up to date.\n", true, 0, 0, 0⟩

/-- Counterexample run for C1: darwin, confirmed hit, but brew fails. -/
def envC1c : Env :=
  ⟨"darwin", some (composeCacheKey inputsOn "darwin"), 0, "Already up to date.\n", true, 1, 0, 0⟩

/-- Witness run for C2: darwin, confirmed hit, brew fails. -/
def envC2w : Env :=
  ⟨"darwin", some (composeCacheKey inputsOn "darwin"), 0, "Already up to date.\n", true, 1, 0, 0⟩

/-- Counterexample run for C2: linux, confirmed hit, apt install fails. -/
def envC2c : Env :=
  ⟨"linux", some (composeCacheKey inputsOn "linux"), 0, "Already up to date.\n", false, 0, 1, 0⟩

/-- Witness run for C3: win32, stale hit, everything else succeeds. -/
def envC3w : Env :=
  ⟨"win32", some (composeCacheKey inputsOn "win32"), 0, "Updating 0a1b2c3..4d5e6f7\n", true, 0, 0, 0⟩

/-- Counterexample run for C3: darwin, stale hit, brew fails. -/
def envC3c : Env :=
  ⟨"darwin", some (composeCacheKey inputsOn "darwin"), 0, "Updating 0a1b2c3..4d5e6f7\n", true, 1, 0, 0⟩

/-- Witness run for C4: win32, cache miss, clone succeeds. -/
def envC4w : Env :=
  ⟨"win32", none, 0, "", true, 0, 0, 0⟩

/-- Counterexample run for C4: win32, cache miss, clone fails. -/
def envC4c : Env :=
  ⟨"win32", none, 1, "", true, 0, 0, 0⟩

/-- Witness run for C5: caching disabled, win32, clone succeeds. -/
def envC5w : Env :=
  ⟨"win32", some "stale-key-left-in-store", 0, "", true, 0, 0, 0⟩

/-- Counterexample run for C5: caching disabled, win32, clone fails. -/
def envC5c : Env :=
  ⟨"win32", some "stale-key-left-in-store", 1, "", true, 0, 0, 0⟩

/-- Witness run for C7: the clone exits with code 1. -/
def envC7 : Env :=
  ⟨"linux", none, 1, "", true, 0, 0, 0⟩

/-- Witness run for C8: an unrecognized platform. -/
def envC8 : Env :=
  ⟨"freebsd", none, 0, "", true, 0, 0, 0⟩

/-- Witness run for C9: caching disabled, linux, build exits with code 2. -/
def envC9 : Env :=
  ⟨"linux", none, 0, "", true, 0, 0, 2⟩

/-! ### Characterization of the substring search -/

theorem isPrefixOf_eq_true_iff (p s : List Char) :
    p.isPrefixOf s = true ↔ ∃ r, s = p ++ r := by
  induction p generalizing s with
  | nil => simp [List.isPrefixOf]
  | cons a p ih =>
    cases s with
    | nil => simp [List.isPrefixOf]
    | cons b s =>
      simp only [List.isPrefixOf, Bool.and_eq_true, beq_iff_eq, ih, List.cons_append]
      constructor
      · rintro ⟨rfl, r, rfl⟩
        exact ⟨r, rfl⟩
      · rintro ⟨r, h⟩
        simp only [List.cons.injEq] at h
        exact ⟨h.1.symm, r, h.2⟩

theorem listContainsSub_eq_true_iff (s pat : List Char) :
    listContainsSub s pat = true ↔ ∃ l r, s = l ++ pat ++ r := by
  induction s with
  | nil =>
    simp only [listContainsSub, List.isEmpty_iff]
    constructor
    · rintro rfl
      exact ⟨[], [], rfl⟩
    · rintro ⟨l, r, h⟩
      rcases List.append_eq_nil.mp h.symm with ⟨h1, h2⟩
      exact (List.append_eq_nil.mp h1).2
  | cons c t ih =>
    simp only [listContainsSub, Bool.or_eq_true, isPrefixOf_eq_true_iff, ih]
    constructor
    · rintro (⟨r, hr⟩ | ⟨l, r, hr⟩)
      · exact ⟨[], r, by simpa using hr⟩
      · exact ⟨c :: l, r, by simp [hr]⟩
    · rintro ⟨l, r, hr⟩
      cases l with
      | nil =>
        left
        exact ⟨r, by simpa using hr⟩
      | cons x l =>
        right
        simp only [List.cons_append, List.cons.injEq] at hr
        exact ⟨l, r, hr.2⟩

/-! ### Shape and equation lemmas for the embedded operations -/

theorem deps_shape (env : Env) (llvm : String) :
    ∀ e ∈ (pullOdinBuildDependencies env llvm).2, isDepEv e = true := by
  unfold pullOdinBuildDependencies
  split_ifs <;> simp [List.forall_mem_cons, isDepEv]

theorem deps_countBuild (env : Env) (llvm : String) :
    countBuild (pullOdinBuildDependencies env llvm).2 = 0 := by
  rw [countBuild, List.countP_eq_zero]
  intro e he
  have h := deps_shape env llvm e he
  cases e <;> simp_all [isDepEv, isBuildEv]

theorem deps_countClone (env : Env) (llvm : String) :
    countClone (pullOdinBuildDependencies env llvm).2 = 0 := by
  rw [countClone, List.countP_eq_zero]
  intro e he
  have h := deps_shape env llvm e he
  cases e <;> simp_all [isDepEv, isCloneEv]

theorem deps_countPull (env : Env) (llvm : String) :
    countPull (pullOdinBuildDependencies env llvm).2 = 0 := by
  rw [countPull, List.countP_eq_zero]
  intro e he
  have h := deps_shape env llvm e he
  cases e <;> simp_all [isDepEv, isPullEv]

theorem deps_countCacheQuery (env : Env) (llvm : String) :
    countCacheQuery (pullOdinBuildDependencies env llvm).2 = 0 := by
  rw [countCacheQuery, List.countP_eq_zero]
  intro e he
  have h := deps_shape env llvm e he
  cases e <;> simp_all [isDepEv, isCacheQueryEv]

theorem deps_no_setOutput (env : Env) (llvm : String) (b : Bool) :
    Event.setOutputCacheHit b ∉ (pullOdinBuildDependencies env llvm).2 := by
  intro he
  have h := deps_shape env llvm _ he
  simp [isDepEv] at h

theorem deps_no_saveState (env : Env) (llvm : String) (s : String) :
    Event.saveStateCacheHit s ∉ (pullOdinBuildDependencies env llvm).2 := by
  intro he
  have h := deps_shape env llvm _ he
  simp [isDepEv] at h

theorem deps_ok_platform (env : Env) (llvm : String) (h : depsOk env llvm = true) :
    env.platform = "darwin" ∨ env.platform = "linux" ∨ env.platform = "win32" := by
  by_contra hc
  push_neg at hc
  obtain ⟨h1, h2, h3⟩ := hc
  simp [depsOk, pullOdinBuildDependencies, h1, h2, h3] at h

theorem depsOk_iff (env : Env) (llvm : String) :
    depsOk env llvm = true ↔ ∃ u devs, pullOdinBuildDependencies env llvm = (Except.ok u, devs) := by
  rcases hd : pullOdinBuildDependencies env llvm with ⟨dr, devs⟩
  cases dr <;> simp [depsOk, hd]

theorem restoreCache_hit_current (env : Env) (inputs : Inputs) (path : String)
    (hk : env.restoredKey = some (composeCacheKey inputs env.platform))
    (hs : jsIncludes env.pullStdout upToDateSignal = true) :
    restoreCache env inputs path =
      (Except.ok true,
        [Event.cacheRestore (composeCacheKey inputs env.platform),
          Event.info "Cache HIT, checking if it is still up-to-date",
          Event.execPull path inputs.odinVersion,
          Event.info "Cache is still up-to-date", Event.setOutputCacheHit true,
          Event.saveStateCacheHit "true", Event.info "Successfully set up Odin compiler"]) := by
  simp [restoreCache, pullUpdates, hk, hs]

theorem restoreCache_hit_stale (env : Env) (inputs : Inputs) (path : String)
    (hk : env.restoredKey = some (composeCacheKey inputs env.platform))
    (hs : jsIncludes env.pullStdout upToDateSignal = false) :
    restoreCache env inputs path =
      (Except.ok false,
        [Event.cacheRestore (composeCacheKey inputs env.platform),
          Event.info "Cache HIT, checking if it is still up-to-date",
          Event.execPull path inputs.odinVersion,
          Event.info "Cache is not up-to-date, rebuilding the compiler now"]) := by
  simp [restoreCache, pullUpdates, hk, hs]

theorem restoreCache_miss_ok (env : Env) (inputs : Inputs) (path : String)
    (hk : env.restoredKey ≠ some (composeCacheKey inputs env.platform))
    (hc : env.cloneExit = 0) :
    restoreCache env inputs path =
      (Except.ok false,
        [Event.cacheRestore (composeCacheKey inputs env.platform),
          Event.info "Cache MISS",
          Event.execClone inputs.repository inputs.odinVersion]) := by
  simp [restoreCache, pullOdin, hk, hc, Except.map]

theorem restoreCache_miss_err (env : Env) (inputs : Inputs) (path : String)
    (hk : env.restoredKey ≠ some (composeCacheKey inputs env.platform))
    (hc : env.cloneExit ≠ 0) :
    restoreCache env inputs path =
      (Except.error ("Git clone failed with exit code: " ++ toString env.cloneExit ++
        ", are you sure that version exists?"),
        [Event.cacheRestore (composeCacheKey inputs env.platform),
          Event.info "Cache MISS",
          Event.execClone inputs.repository inputs.odinVersion]) := by
  simp [restoreCache, pullOdin, hk, hc, Except.map]

theorem buildStep_unix_ok (env : Env) (inputs : Inputs)
    (hp : env.platform = "darwin" ∨ env.platform = "linux") (hb : env.buildExit = 0) :
    buildStep env inputs =
      (Except.ok (), [Event.execBuild "./build_odin.sh" inputs.buildType odinPath]) := by
  rcases hp with hp | hp <;> simp [buildStep, hp, hb]

theorem buildStep_unix_err (env : Env) (inputs : Inputs)
    (hp : env.platform = "darwin" ∨ env.platform = "linux") (hb : env.buildExit ≠ 0) :
    buildStep env inputs =
      (Except.error ("Building Odin failed with exit code: " ++ toString env.buildExit),
        [Event.execBuild "./build_odin.sh" inputs.buildType odinPath]) := by
  rcases hp with hp | hp <;> simp [buildStep, hp, hb]

theorem buildStep_win_ok (env : Env) (inputs : Inputs)
    (hp : env.platform = "win32") (hb : env.buildExit = 0) :
    buildStep env inputs =
      (Except.ok (), [Event.execBuild "./build.bat" inputs.buildType odinPath]) := by
  simp [buildStep, hp, hb]

theorem buildStep_win_err (env : Env) (inputs : Inputs)
    (hp : env.platform = "win32") (hb : env.buildExit ≠ 0) :
    buildStep env inputs =
      (Except.error ("Building Odin failed with exit code: " ++ toString env.buildExit),
        [Event.execBuild "./build.bat" inputs.buildType odinPath]) := by
  simp [buildStep, hp, hb]

theorem buildStep_shape (env : Env) (inputs : Inputs) :
    ∀ e ∈ (buildStep env inputs).2, isBuildEv e = true := by
  unfold buildStep
  split_ifs <;> simp [List.forall_mem_cons, isBuildEv]

theorem afterCache_ok {env : Env} {inputs : Inputs} {u : Unit} {evs : List Event}
    (h : buildStep env inputs = (Except.ok u, evs)) :
    afterCache env inputs =
      (Except.ok (),
        Event.setOutputCacheHit false :: Event.saveStateCacheHit "false" ::
          evs ++ [Event.info "Successfully set up Odin compiler"]) := by
  simp [afterCache, h]

theorem afterCache_err {env : Env} {inputs : Inputs} {e : String} {evs : List Event}
    (h : buildStep env inputs = (Except.error e, evs)) :
    afterCache env inputs =
      (Except.error e,
        Event.setOutputCacheHit false :: Event.saveStateCacheHit "false" :: evs) := by
  simp [afterCache, h]

theorem run_cache_hit {env : Env} {inputs : Inputs} {u : Unit} {revs devs : List Event}
    (hc : inputs.cacheCheck = true)
    (hr : restoreCache env inputs odinPath = (Except.ok true, revs))
    (hd : pullOdinBuildDependencies env inputs.llvmVersion = (Except.ok u, devs)) :
    run env inputs = (true, Event.addPath odinPath :: (revs ++ devs)) := by
  simp [run, runBody, promiseAll2, hc, hr, hd]

theorem run_cache_restore_err {env : Env} {inputs : Inputs} {e : String}
    {dr : Except String Unit} {revs devs : List Event}
    (hc : inputs.cacheCheck = true)
    (hr : restoreCache env inputs odinPath = (Except.error e, revs))
    (hd : pullOdinBuildDependencies env inputs.llvmVersion = (dr, devs)) :
    run env inputs = (false, (Event.addPath odinPath :: (revs ++ devs)) ++ [Event.setFailed e]) := by
  cases dr <;> simp [run, runBody, promiseAll2, hc, hr, hd]

theorem run_cache_deps_err {env : Env} {inputs : Inputs} {e : String} {b : Bool}
    {revs devs : List Event}
    (hc : inputs.cacheCheck = true)
    (hr : restoreCache env inputs odinPath = (Except.ok b, revs))
    (hd : pullOdinBuildDependencies env inputs.llvmVersion = (Except.error e, devs)) :
    run env inputs = (false, (Event.addPath odinPath :: (revs ++ devs)) ++ [Event.setFailed e]) := by
  simp [run, runBody, promiseAll2, hc, hr, hd]

theorem run_cache_rebuild_ok {env : Env} {inputs : Inputs} {u v : Unit}
    {revs devs aevs : List Event}
    (hc : inputs.cacheCheck = true)
    (hr : restoreCache env inputs odinPath = (Except.ok false, revs))
    (hd : pullOdinBuildDependencies env inputs.llvmVersion = (Except.ok u, devs))
    (ha : afterCache env inputs = (Except.ok v, aevs)) :
    run env inputs = (true, Event.addPath odinPath :: ((revs ++ devs) ++ aevs)) := by
  simp [run, runBody, promiseAll2, hc, hr, hd, ha]

theorem run_cache_rebuild_err {env : Env} {inputs : Inputs} {u : Unit} {e : String}
    {revs devs aevs : List Event}
    (hc : inputs.cacheCheck = true)
    (hr : restoreCache env inputs odinPath = (Except.ok false, revs))
    (hd : pullOdinBuildDependencies env inputs.llvmVersion = (Except.ok u, devs))
    (ha : afterCache env inputs = (Except.error e, aevs)) :
    run env inputs =
      (false, (Event.addPath odinPath :: ((revs ++ devs) ++ aevs)) ++ [Event.setFailed e]) := by
  simp [run, runBody, promiseAll2, hc, hr, hd, ha]

theorem run_nocache_clone_err {env : Env} {inputs : Inputs} {e : String}
    {dr : Except String Unit} {cevs devs : List Event}
    (hc : inputs.cacheCheck = false)
    (hg : pullOdin env inputs.repository inputs.odinVersion = (Except.error e, cevs))
    (hd : pullOdinBuildDependencies env inputs.llvmVersion = (dr, devs)) :
    run env inputs = (false, (Event.addPath odinPath :: (cevs ++ devs)) ++ [Event.setFailed e]) := by
  cases dr <;> simp [run, runBody, promiseAll2, hc, hg, hd]

theorem run_nocache_deps_err {env : Env} {inputs : Inputs} {u : Unit} {e : String}
    {cevs devs : List Event}
    (hc : inputs.cacheCheck = false)
    (hg : pullOdin env inputs.repository inputs.odinVersion = (Except.ok u, cevs))
    (hd : pullOdinBuildDependencies env inputs.llvmVersion = (Except.error e, devs)) :
    run env inputs = (false, (Event.addPath odinPath :: (cevs ++ devs)) ++ [Event.setFailed e]) := by
  simp [run, runBody, promiseAll2, hc, hg, hd]

theorem run_nocache_rebuild_ok {env : Env} {inputs : Inputs} {u v w : Unit}
    {cevs devs aevs : List Event}
    (hc : inputs.cacheCheck = false)
    (hg : pullOdin env inputs.repository inputs.odinVersion = (Except.ok u, cevs))
    (hd : pullOdinBuildDependencies env inputs.llvmVersion = (Except.ok v, devs))
    (ha : afterCache env inputs = (Except.ok w, aevs)) :
    run env inputs = (true, Event.addPath odinPath :: ((cevs ++ devs) ++ aevs)) := by
  simp [run, runBody, promiseAll2, hc, hg, hd, ha]

theorem run_nocache_rebuild_err {env : Env} {inputs : Inputs} {u v : Unit} {e : String}
    {cevs devs aevs : List Event}
    (hc : inputs.cacheCheck = false)
    (hg : pullOdin env inputs.repository inputs.odinVersion = (Except.ok u, cevs))
    (hd : pullOdinBuildDependencies env inputs.llvmVersion = (Except.ok v, devs))
    (ha : afterCache env inputs = (Except.error e, aevs)) :
    run env inputs =
      (false, (Event.addPath odinPath :: ((cevs ++ devs) ++ aevs)) ++ [Event.setFailed e]) := by
  simp [run, runBody, promiseAll2, hc, hg, hd, ha]

theorem pullOdin_ok (env : Env) (repo version : String) (hc : env.cloneExit = 0) :
    pullOdin env repo version = (Except.ok (), [Event.execClone repo version]) := by
  simp [pullOdin, hc]

theorem deps_no_execBuild (env : Env) (llvm s bt c : String) :
    Event.execBuild s bt c ∉ (pullOdinBuildDependencies env llvm).2 := by
  intro he
  have h := deps_shape env llvm _ he
  simp [isDepEv] at h

theorem pullOdin_trace (env : Env) (repo version : String) :
    (pullOdin env repo version).2 = [Event.execClone repo version] := by
  unfold pullOdin
  split_ifs <;> rfl

theorem restore_countBuild (env : Env) (inputs : Inputs) (path : String) :
    countBuild (restoreCache env inputs path).2 = 0 := by
  unfold restoreCache
  split_ifs <;>
    simp [countBuild, List.countP_cons, List.countP_append, isBuildEv, pullUpdates,
      pullOdin_trace]

theorem afterCache_mem_false (env : Env) (inputs : Inputs) :
    Event.setOutputCacheHit false ∈ (afterCache env inputs).2 ∧
      Event.saveStateCacheHit "false" ∈ (afterCache env inputs).2 := by
  rcases hbs : buildStep env inputs with ⟨br, bevs⟩
  cases br <;> simp [afterCache, hbs]

theorem afterCache_no_true (env : Env) (inputs : Inputs) :
    Event.setOutputCacheHit true ∉ (afterCache env inputs).2 ∧
      Event.saveStateCacheHit "true" ∉ (afterCache env inputs).2 := by
  rcases hbs : buildStep env inputs with ⟨br, bevs⟩
  have hshape := buildStep_shape env inputs
  rw [hbs] at hshape
  have h1 : Event.setOutputCacheHit true ∉ bevs := by
    intro hm
    have := hshape _ hm
    simp [isBuildEv] at this
  have h2 : Event.saveStateCacheHit "true" ∉ bevs := by
    intro hm
    have := hshape _ hm
    simp [isBuildEv] at this
  cases br <;> simp [afterCache, hbs, h1, h2]

theorem pullOdin_err (env : Env) (repo version : String) (hc : env.cloneExit ≠ 0) :
    pullOdin env repo version =
      (Except.error ("Git clone failed with exit code: " ++ toString env.cloneExit ++
        ", are you sure that version exists?"),
        [Event.execClone repo version]) := by
  simp [pullOdin, hc]

theorem afterCache_counts (env : Env) (inputs : Inputs)
    (hp : env.platform = "darwin" ∨ env.platform = "linux" ∨ env.platform = "win32") :
    countBuild (afterCache env inputs).2 = 1 ∧
      countClone (afterCache env inputs).2 = 0 ∧
      countPull (afterCache env inputs).2 = 0 ∧
      countCacheQuery (afterCache env inputs).2 = 0 := by
  by_cases hb : env.buildExit = 0
  · rcases hp with hp | hp | hp
    all_goals {
      first
        | (have hbs := buildStep_unix_ok env inputs (Or.inl hp) hb)
        | (have hbs := buildStep_unix_ok env inputs (Or.inr hp) hb)
        | (have hbs := buildStep_win_ok env inputs hp hb)
      rw [afterCache_ok hbs]
      simp [countBuild, countClone, countPull, countCacheQuery, List.countP_cons,
        List.countP_append, isBuildEv, isCloneEv, isPullEv, isCacheQueryEv]
    }
  · rcases hp with hp | hp | hp
    all_goals {
      first
        | (have hbs := buildStep_unix_err env inputs (Or.inl hp) hb)
        | (have hbs := buildStep_unix_err env inputs (Or.inr hp) hb)
        | (have hbs := buildStep_win_err env inputs hp hb)
      rw [afterCache_err hbs]
      simp [countBuild, countClone, countPull, countCacheQuery, List.countP_cons,
        List.countP_append, isBuildEv, isCloneEv, isPullEv, isCacheQueryEv]
    }

theorem pullOdin_update_restoredKey (env : Env) (k : Option String) (repo version : String) :
    pullOdin { env with restoredKey := k } repo version = pullOdin env repo version := rfl

theorem deps_update_restoredKey (env : Env) (k : Option String) (llvm : String) :
    pullOdinBuildDependencies { env with restoredKey := k } llvm =
      pullOdinBuildDependencies env llvm := rfl

theorem afterCache_update_restoredKey (env : Env) (k : Option String) (inputs : Inputs) :
    afterCache { env with restoredKey := k } inputs = afterCache env inputs := rfl

/-! ### Claim C1 -/

/-- Claim C1 (amended): with caching enabled, if the restored key equals
the requested key and the pull reports already-current, the orchestrator
outputs `cache-hit=true`, saves state `cache-hit`='true', and never
invokes the external build command; and, provided the concurrently
launched dependency installation also succeeds, the run terminates
successfully.  (The proviso is forced: a rejected dependency install
rejects the join and the run is set failed — see the counterexample.) -/
theorem claim_C1_cache_hit_confirmation (env : Env) (inputs : Inputs)
    (hc : inputs.cacheCheck = true)
    (hk : env.restoredKey = some (composeCacheKey inputs env.platform))
    (hs : (pullUpdates env odinPath inputs.odinVersion).1 = true)
    (hd : depsOk env inputs.llvmVersion = true) :
    (run env inputs).1 = true ∧
      Event.setOutputCacheHit true ∈ (run env inputs).2 ∧
      Event.saveStateCacheHit "true" ∈ (run env inputs).2 ∧
      countBuild (run env inputs).2 = 0 := by
  obtain ⟨u, devs, hdeq⟩ := (depsOk_iff env inputs.llvmVersion).mp hd
  have hs' : jsIncludes env.pullStdout upToDateSignal = true := by
    simpa [pullUpdates] using hs
  have hr := restoreCache_hit_current env inputs odinPath hk hs'
  have hdb : List.countP isBuildEv devs = 0 := by
    have h0 := deps_countBuild env inputs.llvmVersion
    rw [hdeq] at h0
    simpa [countBuild] using h0
  rw [run_cache_hit hc hr hdeq]
  refine ⟨rfl, by simp, by simp, ?_⟩
  simp [countBuild, List.countP_cons, List.countP_append, isBuildEv, hdb]

/-- Counterexample to C1 as stated: a darwin run with a confirmed cache
hit whose concurrent `brew install` fails; every hypothesis of the claim
holds, yet the run does not terminate successfully. -/
theorem claim_C1_counterexample :
    inputsOn.cacheCheck = true ∧
      envC1c.restoredKey = some (composeCacheKey inputsOn envC1c.platform) ∧
      (pullUpdates envC1c odinPath inputsOn.odinVersion).1 = true ∧
      (run envC1c inputsOn).1 = false := by
  decide

/-- Witness for (amended) C1 at a concrete win32 confirmed-hit run. -/
theorem claim_C1_witness :
    (inputsOn.cacheCheck = true ∧
      envC1w.restoredKey = some (composeCacheKey inputsOn envC1w.platform) ∧
      (pullUpdates envC1w odinPath inputsOn.odinVersion).1 = true ∧
      depsOk envC1w inputsOn.llvmVersion = true) ∧
      (run envC1w inputsOn).1 = true ∧
      Event.setOutputCacheHit true ∈ (run envC1w inputsOn).2 ∧
      Event.saveStateCacheHit "true" ∈ (run envC1w inputsOn).2 ∧
      countBuild (run envC1w inputsOn).2 = 0 :=
  ⟨⟨rfl, by decide, by decide, by decide⟩,
    claim_C1_cache_hit_confirmation envC1w inputsOn rfl (by decide) (by decide) (by decide)⟩

/-! ### Claim C2 -/

/-- Claim C2 (amended): when the dependency installation launched
concurrently with cache restoration fails but the restoration confirms a
hit, the failure is NOT discarded: the rejection propagates through the
join, the run is reported as failed with the installer's error message,
although `cache-hit=true` has already been output and saved and no build
is invoked.  (The destructuring in the source discards only the resolved
value of the dependency-install promise, not its rejection.) -/
theorem claim_C2_dep_failure_on_hit (env : Env) (inputs : Inputs) (em : String)
    (hc : inputs.cacheCheck = true)
    (hk : env.restoredKey = some (composeCacheKey inputs env.platform))
    (hs : (pullUpdates env odinPath inputs.odinVersion).1 = true)
    (hd : (pullOdinBuildDependencies env inputs.llvmVersion).1 = Except.error em) :
    (run env inputs).1 = false ∧
      Event.setFailed em ∈ (run env inputs).2 ∧
      Event.setOutputCacheHit true ∈ (run env inputs).2 ∧
      countBuild (run env inputs).2 = 0 := by
  rcases hdeq : pullOdinBuildDependencies env inputs.llvmVersion with ⟨dr, devs⟩
  rw [hdeq] at hd
  simp only at hd
  subst hd
  have hs' : jsIncludes env.pullStdout upToDateSignal = true := by
    simpa [pullUpdates] using hs
  have hr := restoreCache_hit_current env inputs odinPath hk hs'
  have hdb : List.countP isBuildEv devs = 0 := by
    have h0 := deps_countBuild env inputs.llvmVersion
    rw [hdeq] at h0
    simpa [countBuild] using h0
  rw [run_cache_deps_err hc hr hdeq]
  refine ⟨rfl, by simp, by simp, ?_⟩
  simp [countBuild, List.countP_cons, List.countP_append, isBuildEv, hdb]

/-- Counterexample to C2 as stated: a linux run with a confirmed cache
hit whose concurrent `apt-fast install` fails; the claim says the run is
still reported as successful, but it is reported as failed. -/
theorem claim_C2_counterexample :
    inputsOn.cacheCheck = true ∧
      envC2c.restoredKey = some (composeCacheKey inputsOn envC2c.platform) ∧
      (pullUpdates envC2c odinPath inputsOn.odinVersion).1 = true ∧
      (pullOdinBuildDependencies envC2c inputsOn.llvmVersion).1 =
        Except.error "Installing Odin dependencies failed with exit code: 1" ∧
      (run envC2c inputsOn).1 = false ∧
      Event.setFailed "Installing Odin dependencies failed with exit code: 1" ∈
        (run envC2c inputsOn).2 := by
  decide

/-- Witness for (amended) C2 at a concrete darwin confirmed-hit run with
a failing brew install. -/
theorem claim_C2_witness :
    (inputsOn.cacheCheck = true ∧
      envC2w.restoredKey = some (composeCacheKey inputsOn envC2w.platform) ∧
      (pullUpdates envC2w odinPath inputsOn.odinVersion).1 = true ∧
      (pullOdinBuildDependencies envC2w inputsOn.llvmVersion).1 =
        Except.error "Installing Odin dependencies failed with exit code: 1") ∧
      (run envC2w inputsOn).1 = false ∧
      Event.setFailed "Installing Odin dependencies failed with exit code: 1" ∈
        (run envC2w inputsOn).2 ∧
      Event.setOutputCacheHit true ∈ (run envC2w inputsOn).2 ∧
      countBuild (run envC2w inputsOn).2 = 0 :=
  ⟨⟨rfl, by decide, by decide, by decide⟩,
    claim_C2_dep_failure_on_hit envC2w inputsOn
      "Installing Odin dependencies failed with exit code: 1"
      rfl (by decide) (by decide) (by decide)⟩

/-! ### Claim C3 -/

/-- Claim C3 (amended): with caching enabled, a restored key equal to the
requested key but a pull that fetched changes (stale hit) leads — provided
the concurrently launched dependency installation succeeds — to the
orchestrator outputting `cache-hit=false` and invoking the external build
command exactly once, in the updated checkout directory (no fresh clone
is performed).  (The dependency-install proviso is forced: its rejection
rejects the join and no build happens — see the counterexample.) -/
theorem claim_C3_stale_hit_rebuild (env : Env) (inputs : Inputs)
    (hc : inputs.cacheCheck = true)
    (hk : env.restoredKey = some (composeCacheKey inputs env.platform))
    (hs : (pullUpdates env odinPath inputs.odinVersion).1 = false)
    (hd : depsOk env inputs.llvmVersion = true) :
    Event.setOutputCacheHit false ∈ (run env inputs).2 ∧
      countBuild (run env inputs).2 = 1 ∧
      countClone (run env inputs).2 = 0 ∧
      (∀ s bt c, Event.execBuild s bt c ∈ (run env inputs).2 →
        bt = inputs.buildType ∧ c = odinPath) := by
  obtain ⟨u, devs, hdeq⟩ := (depsOk_iff env inputs.llvmVersion).mp hd
  have hs' : jsIncludes env.pullStdout upToDateSignal = false := by
    simpa [pullUpdates] using hs
  have hr := restoreCache_hit_stale env inputs odinPath hk hs'
  have hdb : List.countP isBuildEv devs = 0 := by
    have h0 := deps_countBuild env inputs.llvmVersion
    rw [hdeq] at h0
    simpa [countBuild] using h0
  have hdc : List.countP isCloneEv devs = 0 := by
    have h0 := deps_countClone env inputs.llvmVersion
    rw [hdeq] at h0
    simpa [countClone] using h0
  have hnd : ∀ s bt c, Event.execBuild s bt c ∉ devs := by
    intro s bt c hmem
    have h0 := deps_no_execBuild env inputs.llvmVersion s bt c
    rw [hdeq] at h0
    exact h0 hmem
  have hplat := deps_ok_platform env inputs.llvmVersion hd
  have hunix : env.platform = "darwin" ∨ env.platform = "linux" ∨ env.platform = "win32" := hplat
  by_cases hb : env.buildExit = 0
  · rcases hunix with hp | hp | hp
    all_goals {
      first
        | (have hbs := buildStep_unix_ok env inputs (Or.inl hp) hb)
        | (have hbs := buildStep_unix_ok env inputs (Or.inr hp) hb)
        | (have hbs := buildStep_win_ok env inputs hp hb)
      have ha := afterCache_ok hbs
      rw [run_cache_rebuild_ok hc hr hdeq ha]
      refine ⟨by simp, ?_, ?_, ?_⟩
      · simp [countBuild, List.countP_cons, List.countP_append, isBuildEv, hdb]
      · simp [countClone, List.countP_cons, List.countP_append, isCloneEv, hdc]
      · intro s bt c hmem
        simp at hmem
        rcases hmem with h | h <;>
          first
            | exact absurd h (hnd s bt c)
            | exact ⟨h.2.1, h.2.2⟩
    }
  · rcases hunix with hp | hp | hp
    all_goals {
      first
        | (have hbs := buildStep_unix_err env inputs (Or.inl hp) hb)
        | (have hbs := buildStep_unix_err env inputs (Or.inr hp) hb)
        | (have hbs := buildStep_win_err env inputs hp hb)
      have ha := afterCache_err hbs
      rw [run_cache_rebuild_err hc hr hdeq ha]
      refine ⟨by simp, ?_, ?_, ?_⟩
      · simp [countBuild, List.countP_cons, List.countP_append, isBuildEv, hdb]
      · simp [countClone, List.countP_cons, List.countP_append, isCloneEv, hdc]
      · intro s bt c hmem
        simp at hmem
        rcases hmem with h | h <;>
          first
            | exact absurd h (hnd s bt c)
            | exact ⟨h.2.1, h.2.2⟩
    }

/-- Counterexample to C3 as stated: a darwin stale-hit run whose
concurrent `brew install` fails; every stated hypothesis holds, yet the
build is never invoked and `cache-hit=false` is never output. -/
theorem claim_C3_counterexample :
    inputsOn.cacheCheck = true ∧
      envC3c.restoredKey = some (composeCacheKey inputsOn envC3c.platform) ∧
      (pullUpdates envC3c odinPath inputsOn.odinVersion).1 = false ∧
      countBuild (run envC3c inputsOn).2 = 0 ∧
      Event.setOutputCacheHit false ∉ (run envC3c inputsOn).2 := by
  decide

/-- Witness for (amended) C3 at a concrete win32 stale-hit run. -/
theorem claim_C3_witness :
    (inputsOn.cacheCheck = true ∧
      envC3w.restoredKey = some (composeCacheKey inputsOn envC3w.platform) ∧
      (pullUpdates envC3w odinPath inputsOn.odinVersion).1 = false ∧
      depsOk envC3w inputsOn.llvmVersion = true) ∧
      Event.setOutputCacheHit false ∈ (run envC3w inputsOn).2 ∧
      countBuild (run envC3w inputsOn).2 = 1 ∧
      countClone (run envC3w inputsOn).2 = 0 :=
  ⟨⟨rfl, by decide, by decide, by decide⟩,
    (claim_C3_stale_hit_rebuild envC3w inputsOn rfl (by decide) (by decide) (by decide)).1,
    (claim_C3_stale_hit_rebuild envC3w inputsOn rfl (by decide) (by decide) (by decide)).2.1,
    (claim_C3_stale_hit_rebuild envC3w inputsOn rfl (by decide) (by decide) (by decide)).2.2.1⟩

/-! ### Claim C4 -/

/-- Claim C4 (amended): with caching enabled and the cache store returning
no key or a key different from the requested one, the orchestrator
performs the fresh clone exactly once and never invokes the pull
(`syncToLatest`); and, provided the clone and the concurrently launched
dependency installation succeed, it invokes the build command exactly
once.  (The provisos are forced: a failing clone or install rejects the
join before the build step is reached — see the counterexample.) -/
theorem claim_C4_miss_path (env : Env) (inputs : Inputs)
    (hc : inputs.cacheCheck = true)
    (hk : env.restoredKey ≠ some (composeCacheKey inputs env.platform)) :
    countClone (run env inputs).2 = 1 ∧
      countPull (run env inputs).2 = 0 ∧
      (env.cloneExit = 0 → depsOk env inputs.llvmVersion = true →
        countBuild (run env inputs).2 = 1) := by
  rcases hdeq : pullOdinBuildDependencies env inputs.llvmVersion with ⟨dr, devs⟩
  have hdc : List.countP isCloneEv devs = 0 := by
    have h0 := deps_countClone env inputs.llvmVersion
    rw [hdeq] at h0
    simpa [countClone] using h0
  have hdp : List.countP isPullEv devs = 0 := by
    have h0 := deps_countPull env inputs.llvmVersion
    rw [hdeq] at h0
    simpa [countPull] using h0
  have hdb : List.countP isBuildEv devs = 0 := by
    have h0 := deps_countBuild env inputs.llvmVersion
    rw [hdeq] at h0
    simpa [countBuild] using h0
  by_cases hcl : env.cloneExit = 0
  · have hr := restoreCache_miss_ok env inputs odinPath hk hcl
    cases dr with
    | error e =>
      rw [run_cache_deps_err hc hr hdeq]
      refine ⟨?_, ?_, ?_⟩
      · simp [countClone, List.countP_cons, List.countP_append, isCloneEv, hdc]
      · simp [countPull, List.countP_cons, List.countP_append, isPullEv, hdp]
      · intro h0 hdok
        have hbad : depsOk env inputs.llvmVersion = false := by simp [depsOk, hdeq]
        rw [hbad] at hdok
        exact absurd hdok (by simp)
    | ok u =>
      have hdok : depsOk env inputs.llvmVersion = true := by simp [depsOk, hdeq]
      have hplat := deps_ok_platform env inputs.llvmVersion hdok
      have hcounts := afterCache_counts env inputs hplat
      rcases haeq : afterCache env inputs with ⟨ar, aevs⟩
      rw [haeq] at hcounts
      simp only [countBuild, countClone, countPull, countCacheQuery] at hcounts
      obtain ⟨hab, hac, hap, haq⟩ := hcounts
      cases ar with
      | ok v =>
        rw [run_cache_rebuild_ok hc hr hdeq haeq]
        refine ⟨?_, ?_, fun _ _ => ?_⟩
        · simp [countClone, List.countP_cons, List.countP_append, isCloneEv, hdc, hac]
        · simp [countPull, List.countP_cons, List.countP_append, isPullEv, hdp, hap]
        · simp [countBuild, List.countP_cons, List.countP_append, isBuildEv, hdb, hab]
      | error e =>
        rw [run_cache_rebuild_err hc hr hdeq haeq]
        refine ⟨?_, ?_, fun _ _ => ?_⟩
        · simp [countClone, List.countP_cons, List.countP_append, isCloneEv, hdc, hac]
        · simp [countPull, List.countP_cons, List.countP_append, isPullEv, hdp, hap]
        · simp [countBuild, List.countP_cons, List.countP_append, isBuildEv, hdb, hab]
  · have hr := restoreCache_miss_err env inputs odinPath hk hcl
    rw [run_cache_restore_err hc hr hdeq]
    refine ⟨?_, ?_, fun h0 _ => absurd h0 hcl⟩
    · simp [countClone, List.countP_cons, List.countP_append, isCloneEv, hdc]
    · simp [countPull, List.countP_cons, List.countP_append, isPullEv, hdp]

/-- Counterexample to C4 as stated: a cache-miss run whose fresh clone
exits non-zero; the clone is attempted and no pull happens, but the build
command — which the claim says is then invoked — is never invoked. -/
theorem claim_C4_counterexample :
    inputsOn.cacheCheck = true ∧
      envC4c.restoredKey ≠ some (composeCacheKey inputsOn envC4c.platform) ∧
      countClone (run envC4c inputsOn).2 = 1 ∧
      countPull (run envC4c inputsOn).2 = 0 ∧
      countBuild (run envC4c inputsOn).2 = 0 := by
  decide

/-- Witness for (amended) C4 at a concrete win32 cache-miss run. -/
theorem claim_C4_witness :
    (inputsOn.cacheCheck = true ∧
      envC4w.restoredKey ≠ some (composeCacheKey inputsOn envC4w.platform) ∧
      envC4w.cloneExit = 0 ∧ depsOk envC4w inputsOn.llvmVersion = true) ∧
      countClone (run envC4w inputsOn).2 = 1 ∧
      countPull (run envC4w inputsOn).2 = 0 ∧
      countBuild (run envC4w inputsOn).2 = 1 :=
  ⟨⟨rfl, by decide, by decide, by decide⟩,
    (claim_C4_miss_path envC4w inputsOn rfl (by decide)).1,
    (claim_C4_miss_path envC4w inputsOn rfl (by decide)).2.1,
    (claim_C4_miss_path envC4w inputsOn rfl (by decide)).2.2 (by decide) (by decide)⟩

/-! ### Claim C5 -/

/-- Claim C5 (amended): with caching disabled, the orchestrator always
performs the fresh clone exactly once and never queries the cache store;
its behaviour is identical whatever the cache store would have restored;
and, provided the clone and the concurrently launched dependency
installation succeed, it invokes the build command exactly once.  (The
provisos are forced: a failing clone or install rejects the join before
the build step is reached — see the counterexample.) -/
theorem claim_C5_disabled_cache (env : Env) (inputs : Inputs)
    (hc : inputs.cacheCheck = false) :
    countClone (run env inputs).2 = 1 ∧
      countCacheQuery (run env inputs).2 = 0 ∧
      (∀ k, run { env with restoredKey := k } inputs = run env inputs) ∧
      (env.cloneExit = 0 → depsOk env inputs.llvmVersion = true →
        countBuild (run env inputs).2 = 1) := by
  rcases hdeq : pullOdinBuildDependencies env inputs.llvmVersion with ⟨dr, devs⟩
  have hdc : List.countP isCloneEv devs = 0 := by
    have h0 := deps_countClone env inputs.llvmVersion
    rw [hdeq] at h0
    simpa [countClone] using h0
  have hdq : List.countP isCacheQueryEv devs = 0 := by
    have h0 := deps_countCacheQuery env inputs.llvmVersion
    rw [hdeq] at h0
    simpa [countCacheQuery] using h0
  have hdb : List.countP isBuildEv devs = 0 := by
    have h0 := deps_countBuild env inputs.llvmVersion
    rw [hdeq] at h0
    simpa [countBuild] using h0
  have hsame : ∀ k, run { env with restoredKey := k } inputs = run env inputs := by
    intro k
    simp [run, runBody, hc, pullOdin_update_restoredKey, deps_update_restoredKey,
      afterCache_update_restoredKey]
  by_cases hcl : env.cloneExit = 0
  · have hg := pullOdin_ok env inputs.repository inputs.odinVersion hcl
    cases dr with
    | error e =>
      have hrun := run_nocache_deps_err hc hg hdeq
      refine ⟨?_, ?_, hsame, ?_⟩
      · rw [hrun]
        simp [countClone, List.countP_cons, List.countP_append, isCloneEv, hdc]
      · rw [hrun]
        simp [countCacheQuery, List.countP_cons, List.countP_append, isCacheQueryEv, hdq]
      · intro h0 hdok
        have hbad : depsOk env inputs.llvmVersion = false := by simp [depsOk, hdeq]
        rw [hbad] at hdok
        exact absurd hdok (by simp)
    | ok u =>
      have hdok : depsOk env inputs.llvmVersion = true := by simp [depsOk, hdeq]
      have hplat := deps_ok_platform env inputs.llvmVersion hdok
      have hcounts := afterCache_counts env inputs hplat
      rcases haeq : afterCache env inputs with ⟨ar, aevs⟩
      rw [haeq] at hcounts
      simp only [countBuild, countClone, countPull, countCacheQuery] at hcounts
      obtain ⟨hab, hac, hap, haq⟩ := hcounts
      cases ar with
      | ok v =>
        have hrun := run_nocache_rebuild_ok hc hg hdeq haeq
        refine ⟨?_, ?_, hsame, fun _ _ => ?_⟩
        · rw [hrun]
          simp [countClone, List.countP_cons, List.countP_append, isCloneEv, hdc, hac]
        · rw [hrun]
          simp [countCacheQuery, List.countP_cons, List.countP_append, isCacheQueryEv, hdq, haq]
        · rw [hrun]
          simp [countBuild, List.countP_cons, List.countP_append, isBuildEv, hdb, hab]
      | error e =>
        have hrun := run_nocache_rebuild_err hc hg hdeq haeq
        refine ⟨?_, ?_, hsame, fun _ _ => ?_⟩
        · rw [hrun]
          simp [countClone, List.countP_cons, List.countP_append, isCloneEv, hdc, hac]
        · rw [hrun]
          simp [countCacheQuery, List.countP_cons, List.countP_append, isCacheQueryEv, hdq, haq]
        · rw [hrun]
          simp [countBuild, List.countP_cons, List.countP_append, isBuildEv, hdb, hab]
  · have hg := pullOdin_err env inputs.repository inputs.odinVersion hcl
    have hrun := run_nocache_clone_err hc hg hdeq
    refine ⟨?_, ?_, hsame, fun h0 _ => absurd h0 hcl⟩
    · rw [hrun]
      simp [countClone, List.countP_cons, List.countP_append, isCloneEv, hdc]
    · rw [hrun]
      simp [countCacheQuery, List.countP_cons, List.countP_append, isCacheQueryEv, hdq]

/-- Counterexample to C5 as stated: a disabled-cache run whose fresh
clone exits non-zero; the clone is attempted and the cache store is never
queried, but the build command — which the claim says is always invoked —
is never invoked. -/
theorem claim_C5_counterexample :
    inputsOff.cacheCheck = false ∧
      countClone (run envC5c inputsOff).2 = 1 ∧
      countCacheQuery (run envC5c inputsOff).2 = 0 ∧
      countBuild (run envC5c inputsOff).2 = 0 := by
  decide

/-- Witness for (amended) C5 at a concrete disabled-cache win32 run. -/
theorem claim_C5_witness :
    inputsOff.cacheCheck = false ∧
      countClone (run envC5w inputsOff).2 = 1 ∧
      countCacheQuery (run envC5w inputsOff).2 = 0 ∧
      countBuild (run envC5w inputsOff).2 = 1 :=
  ⟨rfl,
    (claim_C5_disabled_cache envC5w inputsOff rfl).1,
    (claim_C5_disabled_cache envC5w inputsOff rfl).2.1,
    (claim_C5_disabled_cache envC5w inputsOff rfl).2.2.2 (by decide) (by decide)⟩

/-! ### Claim C6 -/

/-- Claim C6: `pullUpdates` returns `true` if and only if the captured
standard output of the underlying pull contains the literal substring
"Already up to date.".  The right-hand side mentions only the captured
stdout, so nothing else — in particular no timestamp or commit-hash
comparison — enters the staleness oracle. -/
theorem claim_C6_textual_staleness_oracle (env : Env) (path version : String) :
    (pullUpdates env path version).1 = true ↔
      ∃ l r, env.pullStdout.data = l ++ upToDateSignal.data ++ r := by
  simpa [pullUpdates, jsIncludes] using
    listContainsSub_eq_true_iff env.pullStdout.data upToDateSignal.data

/-! ### Claim C7 -/

/-- Claim C7: when the underlying `git clone` exits non-zero, `pullOdin`
fails fatally with an error message naming the exit code and suggesting
the requested version may not exist, and the clone was attempted exactly
once (the whole trace is that single invocation — no retry). -/
theorem claim_C7_clone_failure_fatal (env : Env) (repo version : String)
    (h : env.cloneExit ≠ 0) :
    pullOdin env repo version =
      (Except.error ("Git clone failed with exit code: " ++ toString env.cloneExit ++
        ", are you sure that version exists?"),
        [Event.execClone repo version]) := by
  simp [pullOdin, h]

/-- Witness for C7 at a concrete failing clone. -/
theorem claim_C7_witness :
    envC7.cloneExit ≠ 0 ∧
      pullOdin envC7 "https://github.com/odin-lang/Odin" "master" =
        (Except.error ("Git clone failed with exit code: " ++ toString envC7.cloneExit ++
          ", are you sure that version exists?"),
          [Event.execClone "https://github.com/odin-lang/Odin" "master"]) :=
  ⟨by decide, claim_C7_clone_failure_fatal envC7 "https://github.com/odin-lang/Odin" "master" (by decide)⟩

/-! ### Claim C8 -/

/-- Claim C8: on a host platform outside the three recognized families
(darwin, linux, win32), dependency installation fails immediately with
the unsupported-platform error and performs no installation action at all
(its trace is empty), and the whole run fails with no build command ever
invoked. -/
theorem claim_C8_unsupported_platform (env : Env) (inputs : Inputs)
    (h1 : env.platform ≠ "darwin") (h2 : env.platform ≠ "linux") (h3 : env.platform ≠ "win32") :
    pullOdinBuildDependencies env inputs.llvmVersion =
      (Except.error ("Operating system " ++ env.platform ++ " is not supported by setup-odin"), []) ∧
      (run env inputs).1 = false ∧
      countBuild (run env inputs).2 = 0 := by
  have hdeq : pullOdinBuildDependencies env inputs.llvmVersion =
      (Except.error ("Operating system " ++ env.platform ++ " is not supported by setup-odin"), []) := by
    simp [pullOdinBuildDependencies, h1, h2, h3]
  refine ⟨hdeq, ?_⟩
  by_cases hc : inputs.cacheCheck = true
  · rcases hreq : restoreCache env inputs odinPath with ⟨rr, revs⟩
    have hrb : List.countP isBuildEv revs = 0 := by
      have h0 := restore_countBuild env inputs odinPath
      rw [hreq] at h0
      simpa [countBuild] using h0
    cases rr with
    | ok b =>
      rw [run_cache_deps_err hc hreq hdeq]
      exact ⟨rfl, by simp [countBuild, List.countP_cons, List.countP_append, isBuildEv, hrb]⟩
    | error e =>
      rw [run_cache_restore_err hc hreq hdeq]
      exact ⟨rfl, by simp [countBuild, List.countP_cons, List.countP_append, isBuildEv, hrb]⟩
  · have hc' : inputs.cacheCheck = false := by simpa using hc
    rcases hgeq : pullOdin env inputs.repository inputs.odinVersion with ⟨gr, cevs⟩
    have hgb : cevs = [Event.execClone inputs.repository inputs.odinVersion] := by
      have h0 := pullOdin_trace env inputs.repository inputs.odinVersion
      rw [hgeq] at h0
      simpa using h0
    cases gr with
    | ok u =>
      rw [run_nocache_deps_err hc' hgeq hdeq]
      exact ⟨rfl, by simp [hgb, countBuild, List.countP_cons, List.countP_append, isBuildEv]⟩
    | error e =>
      rw [run_nocache_clone_err hc' hgeq hdeq]
      exact ⟨rfl, by simp [hgb, countBuild, List.countP_cons, List.countP_append, isBuildEv]⟩

/-- Witness for C8 at a concrete freebsd run. -/
theorem claim_C8_witness :
    (envC8.platform ≠ "darwin" ∧ envC8.platform ≠ "linux" ∧ envC8.platform ≠ "win32") ∧
      pullOdinBuildDependencies envC8 inputsOn.llvmVersion =
        (Except.error ("Operating system " ++ envC8.platform ++ " is not supported by setup-odin"), []) ∧
      (run envC8 inputsOn).1 = false ∧
      countBuild (run envC8 inputsOn).2 = 0 :=
  ⟨⟨by decide, by decide, by decide⟩,
    claim_C8_unsupported_platform envC8 inputsOn (by decide) (by decide) (by decide)⟩

/-! ### Claim C9 -/

/-- Claim C9: every run that reaches the build step (the trace contains an
external build invocation) with a non-zero build exit code terminates
unsuccessfully, with the failure reported through `setFailed` carrying a
message that embeds the exit code. -/
theorem claim_C9_build_failure_propagation (env : Env) (inputs : Inputs) (s bt c : String)
    (hmem : Event.execBuild s bt c ∈ (run env inputs).2)
    (hb : env.buildExit ≠ 0) :
    (run env inputs).1 = false ∧
      Event.setFailed ("Building Odin failed with exit code: " ++ toString env.buildExit) ∈
        (run env inputs).2 := by
  rcases hdeq : pullOdinBuildDependencies env inputs.llvmVersion with ⟨dr, devs⟩
  have hnd : ∀ s' bt' c', Event.execBuild s' bt' c' ∉ devs := by
    intro s' bt' c' hm
    have h0 := deps_no_execBuild env inputs.llvmVersion s' bt' c'
    rw [hdeq] at h0
    exact h0 hm
  by_cases hc : inputs.cacheCheck = true
  · by_cases hk : env.restoredKey = some (composeCacheKey inputs env.platform)
    · by_cases hst : jsIncludes env.pullStdout upToDateSignal = true
      · have hr := restoreCache_hit_current env inputs odinPath hk hst
        cases dr with
        | ok u =>
          rw [run_cache_hit hc hr hdeq] at hmem
          simp at hmem
          exact absurd hmem (hnd s bt c)
        | error e =>
          rw [run_cache_deps_err hc hr hdeq] at hmem
          simp at hmem
          exact absurd hmem (hnd s bt c)
      · have hst' : jsIncludes env.pullStdout upToDateSignal = false := by simpa using hst
        have hr := restoreCache_hit_stale env inputs odinPath hk hst'
        cases dr with
        | error e =>
          rw [run_cache_deps_err hc hr hdeq] at hmem
          simp at hmem
          exact absurd hmem (hnd s bt c)
        | ok u =>
          have hdok : depsOk env inputs.llvmVersion = true := by simp [depsOk, hdeq]
          rcases deps_ok_platform env inputs.llvmVersion hdok with hp | hp | hp
          all_goals {
            first
              | (have hbs := buildStep_unix_err env inputs (Or.inl hp) hb)
              | (have hbs := buildStep_unix_err env inputs (Or.inr hp) hb)
              | (have hbs := buildStep_win_err env inputs hp hb)
            have ha := afterCache_err hbs
            rw [run_cache_rebuild_err hc hr hdeq ha]
            exact ⟨rfl, by simp⟩
          }
    · by_cases hcl : env.cloneExit = 0
      · have hr := restoreCache_miss_ok env inputs odinPath hk hcl
        cases dr with
        | error e =>
          rw [run_cache_deps_err hc hr hdeq] at hmem
          simp at hmem
          exact absurd hmem (hnd s bt c)
        | ok u =>
          have hdok : depsOk env inputs.llvmVersion = true := by simp [depsOk, hdeq]
          rcases deps_ok_platform env inputs.llvmVersion hdok with hp | hp | hp
          all_goals {
            first
              | (have hbs := buildStep_unix_err env inputs (Or.inl hp) hb)
              | (have hbs := buildStep_unix_err env inputs (Or.inr hp) hb)
              | (have hbs := buildStep_win_err env inputs hp hb)
            have ha := afterCache_err hbs
            rw [run_cache_rebuild_err hc hr hdeq ha]
            exact ⟨rfl, by simp⟩
          }
      · have hr := restoreCache_miss_err env inputs odinPath hk hcl
        rw [run_cache_restore_err hc hr hdeq] at hmem
        simp at hmem
        exact absurd hmem (hnd s bt c)
  · have hc' : inputs.cacheCheck = false := by simpa using hc
    by_cases hcl : env.cloneExit = 0
    · have hg := pullOdin_ok env inputs.repository inputs.odinVersion hcl
      cases dr with
      | error e =>
        rw [run_nocache_deps_err hc' hg hdeq] at hmem
        simp at hmem
        exact absurd hmem (hnd s bt c)
      | ok u =>
        have hdok : depsOk env inputs.llvmVersion = true := by simp [depsOk, hdeq]
        rcases deps_ok_platform env inputs.llvmVersion hdok with hp | hp | hp
        all_goals {
          first
            | (have hbs := buildStep_unix_err env inputs (Or.inl hp) hb)
            | (have hbs := buildStep_unix_err env inputs (Or.inr hp) hb)
            | (have hbs := buildStep_win_err env inputs hp hb)
          have ha := afterCache_err hbs
          rw [run_nocache_rebuild_err hc' hg hdeq ha]
          exact ⟨rfl, by simp⟩
        }
    · have hg := pullOdin_err env inputs.repository inputs.odinVersion hcl
      rw [run_nocache_clone_err hc' hg hdeq] at hmem
      simp at hmem
      exact absurd hmem (hnd s bt c)

/-- Witness for C9 at a concrete disabled-cache linux run with build exit
code 2. -/
theorem claim_C9_witness :
    (Event.execBuild "./build_odin.sh" inputsOff.buildType odinPath ∈ (run envC9 inputsOff).2 ∧
      envC9.buildExit ≠ 0) ∧
      (run envC9 inputsOff).1 = false ∧
      Event.setFailed ("Building Odin failed with exit code: " ++ toString envC9.buildExit) ∈
        (run envC9 inputsOff).2 :=
  ⟨⟨by decide, by decide⟩,
    claim_C9_build_failure_propagation envC9 inputsOff "./build_odin.sh" inputsOff.buildType
      odinPath (by decide) (by decide)⟩

/-! ### Claim C10 -/

/-- Claim C10: the `cache-hit` output and saved state are emitted exactly
at the two cache-decision points — `true` precisely on a confirmed hit,
`false` precisely when the restore/clone phase and the concurrent
dependency installation all succeed without a confirmed hit (reaching the
rebuild path).  Consequently a run that fails before a cache decision is
passed (a fatal clone, restore/sync, or dependency-install error with no
confirmed hit) emits neither. -/
theorem claim_C10_cache_outputs (env : Env) (inputs : Inputs) :
    (Event.setOutputCacheHit true ∈ (run env inputs).2 ↔ confirmedHit env inputs = true) ∧
      (Event.saveStateCacheHit "true" ∈ (run env inputs).2 ↔ confirmedHit env inputs = true) ∧
      (Event.setOutputCacheHit false ∈ (run env inputs).2 ↔ proceedsToRebuild env inputs = true) ∧
      (Event.saveStateCacheHit "false" ∈ (run env inputs).2 ↔ proceedsToRebuild env inputs = true) := by
  rcases hdeq : pullOdinBuildDependencies env inputs.llvmVersion with ⟨dr, devs⟩
  have hdo : ∀ b, Event.setOutputCacheHit b ∉ devs := by
    intro b hm
    have h0 := deps_no_setOutput env inputs.llvmVersion b
    rw [hdeq] at h0
    exact h0 hm
  have hds : ∀ t, Event.saveStateCacheHit t ∉ devs := by
    intro t hm
    have h0 := deps_no_saveState env inputs.llvmVersion t
    rw [hdeq] at h0
    exact h0 hm
  by_cases hc : inputs.cacheCheck = true
  · by_cases hk : env.restoredKey = some (composeCacheKey inputs env.platform)
    · by_cases hst : jsIncludes env.pullStdout upToDateSignal = true
      · have hr := restoreCache_hit_current env inputs odinPath hk hst
        have hch : confirmedHit env inputs = true := by simp [confirmedHit, hc, hk, hst]
        have hpr : proceedsToRebuild env inputs = false := by
          simp [proceedsToRebuild, hc, hr, hdeq]
        cases dr with
        | ok u =>
          rw [run_cache_hit hc hr hdeq]
          simp [hch, hpr, hdo, hds]
        | error e =>
          rw [run_cache_deps_err hc hr hdeq]
          simp [hch, hpr, hdo, hds]
      · have hst' : jsIncludes env.pullStdout upToDateSignal = false := by simpa using hst
        have hr := restoreCache_hit_stale env inputs odinPath hk hst'
        have hch : confirmedHit env inputs = false := by simp [confirmedHit, hst']
        cases dr with
        | error e =>
          have hpr : proceedsToRebuild env inputs = false := by
            simp [proceedsToRebuild, hc, hr, hdeq]
          rw [run_cache_deps_err hc hr hdeq]
          simp [hch, hpr, hdo, hds]
        | ok u =>
          have hpr : proceedsToRebuild env inputs = true := by
            simp [proceedsToRebuild, hc, hr, hdeq]
          have hafm := afterCache_mem_false env inputs
          have hant := afterCache_no_true env inputs
          rcases haeq : afterCache env inputs with ⟨ar, aevs⟩
          rw [haeq] at hafm hant
          obtain ⟨ham1, ham2⟩ := hafm
          obtain ⟨han1, han2⟩ := hant
          cases ar with
          | ok v =>
            rw [run_cache_rebuild_ok hc hr hdeq haeq]
            simp [hch, hpr, hdo, hds, ham1, ham2, han1, han2]
          | error e =>
            rw [run_cache_rebuild_err hc hr hdeq haeq]
            simp [hch, hpr, hdo, hds, ham1, ham2, han1, han2]
    · have hch : confirmedHit env inputs = false := by simp [confirmedHit, hk]
      by_cases hcl : env.cloneExit = 0
      · have hr := restoreCache_miss_ok env inputs odinPath hk hcl
        cases dr with
        | error e =>
          have hpr : proceedsToRebuild env inputs = false := by
            simp [proceedsToRebuild, hc, hr, hdeq]
          rw [run_cache_deps_err hc hr hdeq]
          simp [hch, hpr, hdo, hds]
        | ok u =>
          have hpr : proceedsToRebuild env inputs = true := by
            simp [proceedsToRebuild, hc, hr, hdeq]
          have hafm := afterCache_mem_false env inputs
          have hant := afterCache_no_true env inputs
          rcases haeq : afterCache env inputs with ⟨ar, aevs⟩
          rw [haeq] at hafm hant
          obtain ⟨ham1, ham2⟩ := hafm
          obtain ⟨han1, han2⟩ := hant
          cases ar with
          | ok v =>
            rw [run_cache_rebuild_ok hc hr hdeq haeq]
            simp [hch, hpr, hdo, hds, ham1, ham2, han1, han2]
          | error e =>
            rw [run_cache_rebuild_err hc hr hdeq haeq]
            simp [hch, hpr, hdo, hds, ham1, ham2, han1, han2]
      · have hr := restoreCache_miss_err env inputs odinPath hk hcl
        have hpr : proceedsToRebuild env inputs = false := by
          simp [proceedsToRebuild, hc, hr, hdeq]
        rw [run_cache_restore_err hc hr hdeq]
        simp [hch, hpr, hdo, hds]
  · have hc' : inputs.cacheCheck = false := by simpa using hc
    have hch : confirmedHit env inputs = false := by simp [confirmedHit, hc']
    by_cases hcl : env.cloneExit = 0
    · have hg := pullOdin_ok env inputs.repository inputs.odinVersion hcl
      cases dr with
      | error e =>
        have hpr : proceedsToRebuild env inputs = false := by
          simp [proceedsToRebuild, hc', hg, hdeq]
        rw [run_nocache_deps_err hc' hg hdeq]
        simp [hch, hpr, hdo, hds]
      | ok u =>
        have hpr : proceedsToRebuild env inputs = true := by
          simp [proceedsToRebuild, hc', hg, hdeq]
        have hafm := afterCache_mem_false env inputs
        have hant := afterCache_no_true env inputs
        rcases haeq : afterCache env inputs with ⟨ar, aevs⟩
        rw [haeq] at hafm hant
        obtain ⟨ham1, ham2⟩ := hafm
        obtain ⟨han1, han2⟩ := hant
        cases ar with
        | ok v =>
          rw [run_nocache_rebuild_ok hc' hg hdeq haeq]
          simp [hch, hpr, hdo, hds, ham1, ham2, han1, han2]
        | error e =>
          rw [run_nocache_rebuild_err hc' hg hdeq haeq]
          simp [hch, hpr, hdo, hds, ham1, ham2, han1, han2]
    · have hg := pullOdin_err env inputs.repository inputs.odinVersion hcl
      have hpr : proceedsToRebuild env inputs = false := by
        simp [proceedsToRebuild, hc', hg, hdeq]
      rw [run_nocache_clone_err hc' hg hdeq]
      simp [hch, hpr, hdo, hds]

end SetupOdin
